import Mathlib

/-!
Verification of the `driver` library (autolaborcenter/driver).

Shallow embedding of the source files:
* `src/indexer.rs`   — the bounded priority registry `Indexer<T>` with its
  `FlagVec` bit set, translated function by function.  Rust panics
  (the duplicate-key panic, `unwrap` on an empty slot, `usize` underflow) are
  modelled by returning `none` from an `Option`-valued translation.
  `BinaryHeap<T>` is modelled by a list kept sorted in decreasing order whose
  head is the maximum: `push` inserts in order (same multiset content as the
  heap), `pop` takes the head (the heap's maximum).
* `src/lib.rs`       — the result-collection phase of `Driver::open_all` and
  the event-channel construction of the trait-based
  `SupervisorForMultiple::join`; the candidate drivers' own `join` loops are
  external driver code and enter the model as oracle parameters.
* `src/supervisor_single.rs` — the `SupervisorForSingle` struct, its `take`,
  and the body of its `join` loop; the external calls made by one loop
  iteration (`driver.join`, `D::open_some(1)`, the user callback `f`) are
  supplied by an oracle record, one per iteration.
* `src/supervisor_multiple/context.rs` — the event-channel construction of
  `JoinContextForMultiple::new`.

Machine integers: the `u8` blocks of `FlagVec` are `Nat`s; the only `u8`
operation whose result could leave a byte is the complement `!mask`, written
`255 ^^^ mask` (the `u8` complement of `mask < 256`).  `usize` values are
`Nat`s; every `usize` subtraction in the source is either guarded here by the
pattern match that makes it safe or modelled as a panic (`none`) when the
source would underflow.
-/

/-! ## `FlagVec` (src/indexer.rs lines 11, 213-229) -/

/-- `struct FlagVec(Vec<u8>)`: one bit per slot, eight slots per byte. -/
structure FlagVec where
  bytes : List Nat
deriving DecidableEq, Repr

/-- `FlagVec::with_capacity`: `Self(vec![0; (capacity + 7) / 8])`. -/
def FlagVec.with_capacity (capacity : Nat) : FlagVec :=
  ⟨List.replicate ((capacity + 7) / 8) 0⟩

/-- `FlagVec::set`: `self.0[i / 8] |= 1 << (i % 8)`. -/
def FlagVec.set (m : FlagVec) (i : Nat) : FlagVec :=
  ⟨m.bytes.set (i / 8) (m.bytes.getD (i / 8) 0 ||| (1 <<< (i % 8)))⟩

/-- `FlagVec::clear`: reads the bit at `i`, clears it, and returns the old
value: `let result = (*block & mask) != 0; *block &= !mask;`.  The `u8`
complement `!mask` is `255 ^^^ mask`. -/
def FlagVec.clear (m : FlagVec) (i : Nat) : Bool × FlagVec :=
  let b := m.bytes.getD (i / 8) 0
  let mask := 1 <<< (i % 8)
  ((b &&& mask) != 0, ⟨m.bytes.set (i / 8) (b &&& (255 ^^^ mask))⟩)

/-- Reading a single flag, as the test helper `vec_modified` does:
`(indexer.modified.0[i / 8] & (1 << (i % 8))) != 0`. -/
def FlagVec.test (m : FlagVec) (i : Nat) : Bool :=
  (m.bytes.getD (i / 8) 0).testBit (i % 8)

/-! ## `Indexer` state (src/indexer.rs lines 3-9) -/

/-- `pub struct Indexer<T>`: pinned slots, modification flags, the waiting
max-heap (decreasing list, head = maximum) and the `len` counter. -/
structure Indexer (α : Type) where
  pinned : List (Option α)
  modified : FlagVec
  waiting : List α
  len : Nat
deriving DecidableEq, Repr

section IndexerOps

variable {α : Type} [LinearOrder α] [DecidableEq α]

/-- `Indexer::new(capacity)`: `capacity` empty slots, fresh flags, empty
waiting heap, `len = 0`.  The source performs no validation of `capacity`. -/
def Indexer.new (capacity : Nat) : Indexer α :=
  { pinned := List.replicate capacity none
    modified := FlagVec.with_capacity capacity
    waiting := []
    len := 0 }

/-- `Indexer::is_full`: `self.len == self.pinned.len()`. -/
def Indexer.is_full (s : Indexer α) : Bool :=
  s.len == s.pinned.length

/-- `Indexer::get`: read of `pinned[i]` (in the source `get_unchecked`; every
call site is in bounds whenever the state is reachable). -/
def Indexer.get (s : Indexer α) (i : Nat) : Option α :=
  s.pinned.getD i none

/-- `BinaryHeap::push` on the decreasing-list model of the heap. -/
def heapPush : List α → α → List α
  | [], t => [t]
  | x :: xs, t => if x < t then t :: x :: xs else x :: heapPush xs t

/-- `Vec::swap` on the pinned slots. -/
def swapSlots (p : List (Option α)) (a b : Nat) : List (Option α) :=
  let x := p.getD a none
  let y := p.getD b none
  (p.set a y).set b x

/-- The `for i in (0..i).rev()` loop of `put_somewhere_forward`: sets the
flag of each visited slot, swaps the carried value into occupied slots, and
stops at the first hole.  If no hole exists the carried value is dropped,
exactly as in the source.  First argument: the loop bound `i` (next visited
index plus one); second: the carried value. -/
def psf_loop : Nat → α → List (Option α) → FlagVec → List (Option α) × FlagVec
  | 0, _, p, m => (p, m)
  | j + 1, t, p, m =>
    let m' := m.set j
    match p.getD j none with
    | some u => psf_loop j u (p.set j (some t)) m'
    | none => (p.set j (some t), m')

/-- `Indexer::put_somewhere_forward(i, t)`: replace the occupant of slot `i`
by `t` (panic — `none` — if the slot is empty, as `as_mut().unwrap()` would),
clear flag `i`, bump `len`, then shift the displaced occupants toward index 0
until a hole absorbs the chain. -/
def Indexer.put_somewhere_forward (s : Indexer α) (i : Nat) (t : α) :
    Option (Indexer α) :=
  match s.pinned.getD i none with
  | none => none
  | some old =>
    let p := s.pinned.set i (some t)
    let m := (s.modified.clear i).2
    let r := psf_loop i old p m
    some { s with pinned := r.1, modified := r.2, len := s.len + 1 }

/-- The `for i in range` loop of `put_forward`: `swap(i, i + 1); set(i)`,
iterated for `i = start, …, e - 1`.  First argument: remaining iteration
count `e - start`; second: the current index `j`. -/
def put_forward_loop :
    Nat → Nat → List (Option α) → FlagVec → List (Option α) × FlagVec
  | 0, _, p, m => (p, m)
  | n + 1, j, p, m => put_forward_loop n (j + 1) (swapSlots p j (j + 1)) (m.set j)

/-- `Indexer::put_forward(start..e, t)`: `len += 1`, write `t` at `start`,
clear flag `e`, then bubble `t` toward `e` by pairwise swaps. -/
def Indexer.put_forward (s : Indexer α) (start e : Nat) (t : α) : Indexer α :=
  let p := s.pinned.set start (some t)
  let m := (s.modified.clear e).2
  let r := put_forward_loop (e - start) start p m
  { s with pinned := r.1, modified := r.2, len := s.len + 1 }

/-- The `for i in range.rev()` loop of `put_backward`:
`swap(i, i + 1); set(i + 1)` for `i = e - 1, …, start`.  First argument:
remaining iteration count `e - start`; second: the current upper index. -/
def put_backward_loop :
    Nat → Nat → List (Option α) → FlagVec → List (Option α) × FlagVec
  | 0, _, p, m => (p, m)
  | n + 1, e, p, m => put_backward_loop n (e - 1) (swapSlots p (e - 1) e) (m.set e)

/-- `Indexer::put_backward(start..e, t)`: `len += 1`, write `t` at `e`, clear
flag `start`, then bubble `t` toward `start` by pairwise swaps. -/
def Indexer.put_backward (s : Indexer α) (start e : Nat) (t : α) : Indexer α :=
  let p := s.pinned.set e (some t)
  let m := (s.modified.clear start).2
  let r := put_backward_loop (e - start) e p m
  { s with pinned := r.1, modified := r.2, len := s.len + 1 }

/-- `Indexer::remove_at(i)`: clear the slot and its flag, `len -= 1`. -/
def Indexer.remove_at (s : Indexer α) (i : Nat) : Indexer α :=
  { s with pinned := s.pinned.set i none
           modified := (s.modified.clear i).2
           len := s.len - 1 }

/-- The `while i > 0` loop of `add` plus the final
`put_backward(i..hole, t); Some(i)`.  Arguments: the loop variable `i` and
the current `hole` (an empty slot).  `none` models the duplicate-key
panic. -/
def Indexer.add_find_back (s : Indexer α) (t : α) :
    Nat → Nat → Option (Option Nat × Indexer α)
  | 0, hole => some (some 0, s.put_backward 0 hole t)
  | j + 1, hole =>
    match s.pinned.getD j none with
    | some it =>
      if t < it then some (some (j + 1), s.put_backward (j + 1) hole t)
      else if it < t then s.add_find_back t j hole
      else none
    | none => s.add_find_back t j j

/-- The `loop` of `add`'s non-full branch, scanning down from the tail.  On
`Less` the key is planted by `put_somewhere_forward`; on a hole control moves
to `add_find_back`; `i -= 1` at `i = 0` is the `usize` underflow panic
(`none`), as is the duplicate-key panic. -/
def Indexer.add_scan (s : Indexer α) (t : α) :
    Nat → Option (Option Nat × Indexer α)
  | 0 =>
    match s.pinned.getD 0 none with
    | some it =>
      if t < it then (s.put_somewhere_forward 0 t).map (fun s' => (some 0, s'))
      else if it < t then none
      else none
    | none => s.add_find_back t 0 0
  | i + 1 =>
    match s.pinned.getD (i + 1) none with
    | some it =>
      if t < it then
        (s.put_somewhere_forward (i + 1) t).map (fun s' => (some (i + 1), s'))
      else if it < t then s.add_scan t i
      else none
    | none => s.add_find_back t (i + 1) (i + 1)

/-- `Indexer::add(t)` (src/indexer.rs lines 38-94).  `none` is a panic:
capacity 0 (`pinned.len() - 1` underflow), an empty tail slot under
`is_full` (`get_value` unwrap), a duplicate key, or the scan underflow. -/
def Indexer.add (s : Indexer α) (t : α) : Option (Option Nat × Indexer α) :=
  match s.pinned.length with
  | 0 => none
  | n + 1 =>
    if s.is_full then
      match s.pinned.getD n none with
      | none => none
      | some v =>
        if t < v then some (none, { s with waiting := heapPush s.waiting t })
        else if v < t then
          Indexer.add_find_back
            { s with pinned := s.pinned.set n none
                     waiting := heapPush s.waiting v } t n n
        else none
    else s.add_scan t n

/-- The `for i in (0..=tail).rev()` loop of `remove`.  On `Equal` the waiting
maximum (the head of the decreasing list) is popped into the vacated slot by
`put_forward`, or the slot is cleared by `remove_at`; on `Less` the waiting
heap is rebuilt without `t` (`filter`, same multiset as the source's
drain-filter-repush). -/
def Indexer.remove_scan (s : Indexer α) (t : α) (tail : Nat) :
    Nat → Option Nat × Indexer α
  | 0 =>
    match s.pinned.getD 0 none with
    | some it =>
      if t < it then
        (none, { s with waiting := s.waiting.filter (fun x => decide (t ≠ x)) })
      else if it < t then (none, s)
      else
        match s.waiting with
        | w :: rest => (none, Indexer.put_forward { s with waiting := rest } 0 tail w)
        | [] => (some 0, s.remove_at 0)
    | none => (none, s)
  | i + 1 =>
    match s.pinned.getD (i + 1) none with
    | some it =>
      if t < it then
        (none, { s with waiting := s.waiting.filter (fun x => decide (t ≠ x)) })
      else if it < t then s.remove_scan t tail i
      else
        match s.waiting with
        | w :: rest =>
          (none, Indexer.put_forward { s with waiting := rest } (i + 1) tail w)
        | [] => (some (i + 1), s.remove_at (i + 1))
    | none => s.remove_scan t tail i

/-- `Indexer::remove(t)` (src/indexer.rs lines 96-125).  `none` is the
capacity-0 underflow panic of `pinned.len() - 1`. -/
def Indexer.remove (s : Indexer α) (t : α) : Option (Option Nat × Indexer α) :=
  match s.pinned.length with
  | 0 => none
  | n + 1 => some (s.remove_scan t n n)

/-- The `for i in (0..self.pinned.len()).rev()` loop of `find`.  The argument
counts the slots still unvisited: `i + 1` visits slot `i` next. -/
def Indexer.find_scan (s : Indexer α) (t : α) : Nat → Option Nat
  | 0 => none
  | i + 1 =>
    match s.pinned.getD i none with
    | some it =>
      if t < it then none
      else if it < t then s.find_scan t i
      else some i
    | none => s.find_scan t i

/-- `Indexer::find(t)` (src/indexer.rs lines 127-138). -/
def Indexer.find (s : Indexer α) (t : α) : Option Nat :=
  s.find_scan t s.pinned.length

/-- `Indexer::update(i)` (src/indexer.rs lines 140-142): returns and clears
the modified flag of slot `i`. -/
def Indexer.update (s : Indexer α) (i : Nat) : Bool × Indexer α :=
  let r := s.modified.clear i
  (r.1, { s with modified := r.2 })

/-! ## Specification-side views of an `Indexer` -/

/-- The number of occupied pinned slots (the spec's
`count(pinned where occupied)`). -/
def Indexer.occupiedCount (s : Indexer α) : Nat :=
  (s.pinned.filterMap id).length

/-- Every key present in the structure: pinned occupants plus waiting keys. -/
def Indexer.keyList (s : Indexer α) : List α :=
  s.pinned.filterMap id ++ s.waiting

/-- The modified flags as a `Vec<bool>`, exactly as the source's test helper
`vec_modified` reads them. -/
def Indexer.vecModified (s : Indexer α) : List Bool :=
  (List.range s.pinned.length).map (fun i => s.modified.test i)

/-- One slot pair respects the descending order: two occupied slots must
strictly descend, a hole constrains nothing. -/
def slotGtB : Option α → Option α → Bool
  | some a, some b => decide (b < a)
  | _, _ => true

/-- The spec's ordering invariant: non-empty pinned slots, read in ascending
index order, yield strictly descending keys. -/
def sortedSlots (p : List (Option α)) : Prop :=
  ∀ j, j < p.length → ∀ i, i < j → slotGtB (p.getD i none) (p.getD j none) = true

instance sortedSlotsDecidable (p : List (Option α)) : Decidable (sortedSlots p) :=
  Nat.decidableBallLT p.length
    (fun j _ => ∀ i, i < j → slotGtB (p.getD i none) (p.getD j none) = true)

/-! ## Operation sequences on an `Indexer` -/

/-- One externally visible operation. -/
inductive IdxOp (α : Type) where
  | add (t : α)
  | remove (t : α)
deriving DecidableEq, Repr

/-- Run a single operation; `none` when the source would panic. -/
def stepOp (s : Indexer α) : IdxOp α → Option (Indexer α)
  | .add t => (s.add t).map (fun r => r.2)
  | .remove t => (s.remove t).map (fun r => r.2)

/-- Run a sequence of operations left to right. -/
def runOps : Indexer α → List (IdxOp α) → Option (Indexer α)
  | s, [] => some s
  | s, op :: rest =>
    match stepOp s op with
    | some s' => runOps s' rest
    | none => none

/-- `true` when the run completes without a panic and no `add` ever inserts a
key equal to one already present (pinned or waiting). -/
def dupFreeRun : Indexer α → List (IdxOp α) → Bool
  | _, [] => true
  | s, op :: rest =>
    (match op with
     | .add t => !(decide (t ∈ s.keyList))
     | .remove _ => true) &&
    (match stepOp s op with
     | some s' => dupFreeRun s' rest
     | none => false)

end IndexerOps

/-! ## `Driver::open_all` (src/lib.rs lines 28-83)

The concurrent probe spawns one worker thread per constructed candidate; a
worker returns `Some(driver)` exactly when the driver's blocking `join`
returned `true` (cooperative exit), and the final
`filter_map(|(t, o)| o.join().ok().flatten())` keeps exactly those drivers.
Candidate construction (`Self::new(&t)`) and each driver's `join` decision
are external driver code; they enter the model as the parameters `new?` and
`accepts`.  The pacemaker thread and the inspector closure (which hands
`Arc::strong_count(&counter) > len && Instant::now() < deadline` to the
driver) influence only what `accepts` returns, never which returned-`true`
drivers are collected. -/

section OpenAll

variable {K D : Type}

/-- Result list of `Driver::open_all(keys, len, timeout)` as a function of
the candidates' construction results and `join` outcomes. -/
def open_all (keys : List K) (new? : K → Option D) (accepts : K → D → Bool)
    (_len : Nat) (_timeout : Nat) : List (K × D) :=
  (keys.filterMap (fun t => (new? t).map (fun d => (t, d)))).filter
    (fun p => accepts p.1 p.2)

/-- The successfully constructed candidates (the `drivers` vector before the
probe race starts). -/
def constructedCandidates (keys : List K) (new? : K → Option D) : List (K × D) :=
  keys.filterMap (fun t => (new? t).map (fun d => (t, d)))

end OpenAll

/-! ## Event channels of the two multi-device supervisors -/

/-- A channel constructor call: `sync_channel(n)` is `bounded n`,
`async_std::channel::unbounded()` is `unbounded`. -/
inductive EventChannel where
  | bounded (capacity : Nat)
  | unbounded
deriving DecidableEq, Repr

/-- The worker-to-dispatcher event channel created by
`JoinContextForMultiple::new` (src/supervisor_multiple/context.rs line 40):
`let (sender, receiver) = channel::unbounded();`.  The target driver count
`len` passed to `join` does not reach the channel constructor. -/
def joinContextForMultipleChannel (_len : Nat) : EventChannel :=
  EventChannel.unbounded

/-- The worker-to-dispatcher event channel created by the trait-based
`SupervisorForMultiple::join` (src/lib.rs line 204):
`let (sender, receiver) = sync_channel(2 * len);`. -/
def supervisorForMultipleJoinChannel (len : Nat) : EventChannel :=
  EventChannel.bounded (2 * len)

/-! ## `SupervisorForSingle` (src/supervisor_single.rs)

The struct holds one optional saved driver (`Option<Box<D>>`).  One
iteration of the `join` loop makes up to three external calls — the saved
driver's blocking `join`, `D::open_some(1)`, and the user callback `f` —
whose results are supplied by a `SingleIterEnv` oracle, one per iteration. -/

section SingleSupervisor

variable {K D : Type}

/-- `pub struct SupervisorForSingle<D>(Option<Box<D>>);` -/
structure SupervisorForSingle (D : Type) where
  saved : Option D
deriving DecidableEq, Repr

/-- `SupervisorForSingle::take`: `self.0.take()` — returns the saved driver
and leaves the supervisor empty. -/
def SupervisorForSingle.take (s : SupervisorForSingle D) :
    Option D × SupervisorForSingle D :=
  (s.saved, ⟨none⟩)

/-- The external results one iteration of `join`'s `loop` can consume:
`driverJoin d` is what `driver.join(|d, e| f(Event(d, e)))` returns for the
saved driver, `fDisconnected` is `f(Disconnected)`, `openResult` is
`D::open_some(1).into_iter().next()`, `fConnected t d` is
`f(Connected(t, …))`, `fConnectFailed` is `f(ConnectFailed)`. -/
structure SingleIterEnv (K D : Type) where
  driverJoin : D → Bool
  fDisconnected : Bool
  openResult : Option (K × D)
  fConnected : K → D → Bool
  fConnectFailed : Bool

/-- Outcome of one iteration of the `join` loop: either `join` returns with
the given final supervisor state, or the loop continues from it. -/
inductive SingleStep (D : Type) where
  | ret (s : SupervisorForSingle D)
  | cont (s : SupervisorForSingle D)
deriving DecidableEq, Repr

/-- One iteration of `SupervisorForSingle::join`'s `loop`
(src/supervisor_single.rs lines 47-77), with the external calls read from
`env`.  `self.0.take()` empties the context; a cooperative driver exit saves
the driver back and returns; a disconnect the user declines to retry
returns; otherwise control falls through to the `open_some` match, which
saves a newly opened driver *before* invoking the callback. -/
def join_body (env : SingleIterEnv K D) (s : SupervisorForSingle D) :
    SingleStep D :=
  let afterDriver : SupervisorForSingle D ⊕ SupervisorForSingle D :=
    match s.saved with
    | some driver =>
      if env.driverJoin driver then Sum.inl ⟨some driver⟩
      else if !env.fDisconnected then Sum.inl ⟨none⟩
      else Sum.inr ⟨none⟩
    | none => Sum.inr ⟨none⟩
  match afterDriver with
  | Sum.inl s' => SingleStep.ret s'
  | Sum.inr s' =>
    match env.openResult with
    | some (t, driver) =>
      if !(env.fConnected t driver) then SingleStep.ret ⟨some driver⟩
      else SingleStep.cont ⟨some driver⟩
    | none =>
      if !env.fConnectFailed then SingleStep.ret s'
      else SingleStep.cont s'

/-- `SupervisorForSingle::join`, iterated over a finite list of per-iteration
oracles; `none` means the modelled prefix ended with the loop still
running. -/
def join_loop : List (SingleIterEnv K D) → SupervisorForSingle D →
    Option (SupervisorForSingle D)
  | [], _ => none
  | env :: rest, s =>
    match join_body env s with
    | SingleStep.ret s' => some s'
    | SingleStep.cont s' => join_loop rest s'

end SingleSupervisor

/-! ## Concrete traces used by the claims -/

/-- State after an `add`, keeping the state unchanged on a panic (no trace
below panics). -/
def afterAdd (s : Indexer Int) (t : Int) : Indexer Int :=
  ((s.add t).getD (none, s)).2

/-- State after a `remove`, keeping the state unchanged on a panic. -/
def afterRemove (s : Indexer Int) (t : Int) : Indexer Int :=
  ((s.remove t).getD (none, s)).2

/-- State after an `update`. -/
def afterUpdate (s : Indexer Int) (i : Nat) : Indexer Int :=
  (s.update i).2

/-- The capacity-5 scenario of the spec (and of the source's own test). -/
def demo0 : Indexer Int := Indexer.new 5

def demo1 : Indexer Int := afterAdd demo0 6

def demo2 : Indexer Int := afterAdd demo1 3

def demo3 : Indexer Int := afterAdd demo2 2

def demo4 : Indexer Int := afterAdd demo3 7

def demo5 : Indexer Int := afterAdd demo4 4

def demo6 : Indexer Int := afterRemove demo5 7

def demo7 : Indexer Int := afterRemove demo6 3

def demo8 : Indexer Int := afterAdd demo7 5

def demo9 : Indexer Int := afterAdd demo8 1

def demo10 : Indexer Int := afterUpdate demo9 0

def demo11 : Indexer Int := afterUpdate demo10 1

def demo12 : Indexer Int := afterUpdate demo11 3

def demo13 : Indexer Int := afterUpdate demo12 3

def demo14 : Indexer Int := afterAdd demo13 0

def demo15 : Indexer Int := afterAdd demo14 3

def demo16 : Indexer Int := afterRemove demo15 5

/-- The duplicate-free capacity-2 run that drives the `len` counter above the
occupied-slot count and then breaks the descending-order invariant. -/
def c1Ops : List (IdxOp Int) :=
  [.add 2, .add 1, .add 0, .add (-5), .remove 2, .add (-10), .remove 0]

/-- The state the run `c1Ops` ends in. -/
def c1Final : Indexer Int :=
  { pinned := [some (-10), some (-5)]
    modified := ⟨[1]⟩
    waiting := []
    len := 5 }

/-- Capacity-2 state `[2, 1]` with key `0` waiting (before the `remove` that
exhibits the `len` drift of claim C4). -/
def c4Before : Indexer Int := afterAdd (afterAdd (afterAdd (Indexer.new 2) 2) 1) 0

/-- Sorted three-slot state used to witness the `find` correctness claim. -/
def c5Demo : Indexer Int :=
  { pinned := [some 9, none, some 3]
    modified := FlagVec.with_capacity 3
    waiting := []
    len := 2 }

/-- Empty capacity-2 indexer after a first `update(0)` call (the reference
point for claim C6's "since the previous update(i) call"). -/
def c6S0 : Indexer Int := ((Indexer.new 2 : Indexer Int).update 0).2

/-- State after inserting key 5 into `c6S0`: slot 0's occupant has changed
since the `update(0)` call baked into `c6S0`. -/
def c6S1 : Indexer Int := afterAdd c6S0 5

/-- Candidate constructor for the `open_all` scenarios: keys 0 and 1 map to
drivers, key 2 fails construction. -/
def c7new : Nat → Option Nat :=
  fun k => if k < 2 then some (10 * k) else none

/-- Every constructed candidate accepts (produces an event and exits its
`join` loop cooperatively). -/
def c7accepts : Nat → Nat → Bool := fun _ _ => true

/-- Concrete oracle for the single-supervisor scenario: `open_some(1)` yields
driver 7 under key 3 and the user callback declines the `Connected` event. -/
def c10Env : SingleIterEnv Nat Nat :=
  { driverJoin := fun _ => true
    fDisconnected := true
    openResult := some (3, 7)
    fConnected := fun _ _ => false
    fConnectFailed := true }

/-! # Theorems -/

/-! ## General-purpose lemmas -/

theorem getD_some_lt_length {α : Type} {p : List (Option α)} {j : Nat} {b : α}
    (h : p.getD j none = some b) : j < p.length := by
  by_contra hc
  rw [List.getD_eq_getElem?_getD, List.getElem?_eq_none (by omega)] at h
  simp at h

theorem sortedSlots_lt {α : Type} [LinearOrder α] {p : List (Option α)}
    (hs : sortedSlots p) {i j : Nat} {a b : α} (hij : i < j)
    (ha : p.getD i none = some a) (hb : p.getD j none = some b) : b < a := by
  have hj := getD_some_lt_length hb
  have hgt := hs j hj i hij
  rw [ha, hb] at hgt
  simpa [slotGtB] using hgt

theorem getD_set_self {β : Type} {l : List β} {k : Nat} {v d : β}
    (h : k < l.length) : (l.set k v).getD k d = v := by
  rw [List.getD_eq_getElem?_getD, List.getElem?_set_self h]
  rfl

theorem getD_of_length_le {β : Type} {l : List β} {k : Nat} {d : β}
    (h : l.length ≤ k) : l.getD k d = d := by
  rw [List.getD_eq_getElem?_getD, List.getElem?_eq_none h]
  rfl

/-! ## Bit-level behaviour of `FlagVec` -/

theorem and_shift_bne (b j : Nat) : ((b &&& (1 <<< j)) != 0) = b.testBit j := by
  rw [Nat.one_shiftLeft, Nat.and_two_pow]
  cases h : b.testBit j <;> simp [h, (Nat.two_pow_pos j).ne']

theorem clear_mask_testBit (b : Nat) {j : Nat} (hj : j < 8) :
    (b &&& (255 ^^^ (1 <<< j))).testBit j = false := by
  rw [Nat.testBit_and, Nat.testBit_xor, Nat.one_shiftLeft]
  rw [show (255 : Nat) = 2 ^ 8 - 1 from rfl]
  rw [Nat.testBit_two_pow_sub_one, Nat.testBit_two_pow_self]
  simp [hj]

theorem FlagVec.clear_fst (m : FlagVec) (i : Nat) : (m.clear i).1 = m.test i :=
  and_shift_bne _ _

theorem FlagVec.test_clear_self (m : FlagVec) (i : Nat) :
    (m.clear i).2.test i = false := by
  show FlagVec.test ⟨m.bytes.set (i / 8) _⟩ i = false
  unfold FlagVec.test
  rcases Nat.lt_or_ge (i / 8) m.bytes.length with h | h
  · rw [getD_set_self h]
    exact clear_mask_testBit _ (Nat.mod_lt _ (by omega))
  · rw [List.set_eq_of_length_le h, getD_of_length_le h, Nat.zero_testBit]

/-! ## Claim theorems -/

/-- Claim C1: the claim says that for every duplicate-free sequence of `add` and
`remove` operations the occupied pinned slots always hold strictly
descending keys.  The code violates it: the duplicate-free, panic-free run
`c1Ops` on a capacity-2 indexer ends with pinned `[-10, -5]`, which ascends.
(The root cause is the missing `len` decrement when `add` evicts the tail
occupant to `waiting` and when `remove` promotes a waiting key: once `len`
drifts above the occupied count, `is_full` misreports, `add` takes the
non-full branch on a fully occupied array and inserts without consulting
`waiting`, and a later promotion places a larger waiting key after a smaller
pinned one.) -/
theorem c1_len_drift_breaks_descending_invariant :
    dupFreeRun (Indexer.new 2 : Indexer Int) c1Ops = true ∧
    runOps (Indexer.new 2 : Indexer Int) c1Ops = some c1Final ∧
    c1Final.pinned = [some (-10), some (-5)] ∧
    ¬ sortedSlots c1Final.pinned := by
  decide

/-- Claim C2: the capacity-5 scenario.  Every return value, pinned
configuration, modified-flag set and waiting content claimed by the spec
holds, step by step, exactly as in the source's own test. -/
theorem c2_capacity5_scenario :
    [demo0.add 6, demo1.add 3, demo2.add 2, demo3.add 7, demo4.add 4] =
      [some (some 0, demo1), some (some 1, demo2), some (some 2, demo3),
        some (some 0, demo4), some (some 2, demo5)] ∧
    (demo5.pinned, demo5.vecModified) =
      ([some 7, some 6, some 4, some 3, some 2],
        [false, true, false, true, true]) ∧
    (demo7.pinned, demo7.vecModified) =
      ([none, some 6, some 4, none, some 2],
        [false, true, false, false, true]) ∧
    (demo8.pinned, demo8.vecModified) =
      ([none, some 6, some 5, some 4, some 2],
        [false, true, false, true, true]) ∧
    (demo9.pinned, demo9.vecModified) =
      ([some 6, some 5, some 4, some 2, some 1],
        [true, true, true, true, false]) ∧
    [(demo9.update 0).1, (demo10.update 1).1, (demo11.update 3).1,
        (demo12.update 3).1] = [true, true, true, false] ∧
    demo13.vecModified = [false, false, true, false, false] ∧
    demo13.add 0 = some (none, demo14) ∧
    demo14.waiting = [0] ∧
    demo14.add 3 = some (some 3, demo15) ∧
    (demo15.pinned, demo15.waiting, demo15.vecModified) =
      ([some 6, some 5, some 4, some 3, some 2], [1, 0],
        [false, false, true, false, true]) ∧
    (demo16.pinned, demo16.waiting, demo16.vecModified) =
      ([some 6, some 4, some 3, some 2, some 1], [0],
        [false, true, true, true, false]) := by
  and_intros <;> decide

/-- Claim C3: the claim says `len` always equals the number of occupied pinned
slots.  The code violates it: on capacity 2, after `add 2; add 1; add 3`
(the last `add` evicts key 1 to `waiting` without decrementing `len` and
then increments it in `put_backward`), `len` is 3 while only 2 slots are
occupied. -/
theorem c3_len_exceeds_occupied_count :
    dupFreeRun (Indexer.new 2 : Indexer Int) [.add 2, .add 1, .add 3] = true ∧
    (runOps (Indexer.new 2 : Indexer Int) [.add 2, .add 1, .add 3]).map
        (fun s => (s.pinned, s.waiting, s.len, s.occupiedCount)) =
      some ([some 3, some 2], [1], 3, 2) := by
  decide

/-- Claim C4: the claim says `remove` of a pinned key with a non-empty waiting
pile returns `none`, promotes the waiting maximum, and leaves `len()`
unchanged.  The code returns `none` and promotes the maximum (waiting key 0
becomes pinned, order preserved), but `put_forward` increments `len` with no
matching decrement: `len` goes from 2 to 3. -/
theorem c4_remove_with_waiting_changes_len :
    c4Before.len = 2 ∧
    c4Before.pinned = [some 2, some 1] ∧
    c4Before.waiting = [0] ∧
    (c4Before.remove 2).map
        (fun r => (r.1, r.2.pinned, r.2.waiting, r.2.len, r.2.occupiedCount)) =
      some (none, [some 1, some 0], [], 3, 2) := by
  decide

/-- Claim C6 counterexample: the claim says `update(i)` returns `true` exactly when
slot `i`'s occupant changed since the previous `update(i)` call.  Refutation:
starting from an empty capacity-2 indexer, call `update 0` (it returns
`false`), then `add 5`, which places key 5 into slot 0 — the occupant changes
from `none` to `some 5` — yet the next `update 0` still returns `false`,
because `put_backward` *clears* the flag of the slot that directly receives
the inserted key. -/
theorem c6_update_misses_direct_insertion :
    ((Indexer.new 2 : Indexer Int).update 0).1 = false ∧
    c6S0.get 0 = none ∧
    c6S0.add 5 = some (some 0, c6S1) ∧
    c6S1.get 0 = some 5 ∧
    (c6S1.update 0).1 = false := by
  decide

/-- Claim C6 as amended: `update(i)` returns the current modified flag of slot `i`
and clears it, touching nothing else; consequently a second `update(i)` with
no intervening flag-setting modification returns `false`.  (The flag is set
for slots whose occupant is displaced by a swap chain, but cleared — not
set — for the slot that directly receives an inserted or promoted key, so
`update(i)` can return `false` even though slot `i`'s occupant changed.) -/
theorem c6_update_returns_and_clears_flag {α : Type} [LinearOrder α]
    [DecidableEq α] (s : Indexer α) (i : Nat) :
    (s.update i).1 = s.modified.test i ∧
    (s.update i).2.modified.test i = false ∧
    (s.update i).2.pinned = s.pinned ∧
    (s.update i).2.waiting = s.waiting ∧
    (s.update i).2.len = s.len ∧
    ((s.update i).2.update i).1 = false := by
  refine ⟨FlagVec.clear_fst s.modified i, FlagVec.test_clear_self s.modified i,
    rfl, rfl, rfl, ?_⟩
  show ((s.modified.clear i).2.clear i).1 = false
  rw [FlagVec.clear_fst, FlagVec.test_clear_self]

/-- Claim C8: the claim says `Indexer::new(capacity)` fails (panics) for every
capacity below 2.  Refutation: `new` contains no validation at all; at
capacity 1 and capacity 0 it returns a normal empty indexer, and a capacity-1
indexer even supports a successful `add`. -/
theorem c8_new_accepts_small_capacity :
    (Indexer.new 1 : Indexer Int).pinned = [none] ∧
    (Indexer.new 1 : Indexer Int).len = 0 ∧
    (Indexer.new 0 : Indexer Int).pinned = [] ∧
    (Indexer.new 1 : Indexer Int).add 5 =
      some (some 0, ⟨[some 5], ⟨[0]⟩, [], 1⟩) := by
  decide

/-- Claim C8 as amended: `Indexer::new` performs no capacity validation — for every
capacity (including 0 and 1) it succeeds and returns an indexer with that
many empty slots, no waiting keys and `len = 0`; only later operations can
panic (on capacity 0, `add` underflows computing `pinned.len() - 1`). -/
theorem c8_new_never_fails (c : Nat) (t : Int) :
    (Indexer.new c : Indexer Int).pinned.length = c ∧
    (Indexer.new c : Indexer Int).len = 0 ∧
    (Indexer.new c : Indexer Int).waiting = [] ∧
    (Indexer.new c : Indexer Int).occupiedCount = 0 ∧
    (Indexer.new 0 : Indexer Int).add t = none := by
  refine ⟨by simp [Indexer.new], rfl, rfl, ?_, rfl⟩
  show ((List.replicate c (none : Option Int)).filterMap id).length = 0
  simp

/-- Claim C9 counterexample: the claim says the multi-device supervisor's `join`
creates a bounded event channel of capacity `2 * len`.  The supervisor the
spec describes (the `supervisor_multiple/context.rs` variant, with
`next_try` and per-driver command channels) creates an *unbounded* channel
in `JoinContextForMultiple::new`; at `len = 3` the claim would require
`bounded 6`. -/
theorem c9_context_channel_unbounded :
    joinContextForMultipleChannel 3 = EventChannel.unbounded ∧
    EventChannel.unbounded ≠ EventChannel.bounded 6 := by
  refine ⟨rfl, by decide⟩

/-- Claim C9 as amended: the event channel sized `2 * len` exists only in the
trait-based `SupervisorForMultiple::join` of `lib.rs`; the
`JoinContextForMultiple::new` of `supervisor_multiple/context.rs` creates an
unbounded channel for every target count. -/
theorem c9_channel_by_implementation (len : Nat) :
    supervisorForMultipleJoinChannel len = EventChannel.bounded (2 * len) ∧
    joinContextForMultipleChannel len = EventChannel.unbounded :=
  ⟨rfl, rfl⟩

/-! ## `find` correctness (claim C5) -/

theorem find_scan_succ {α : Type} [LinearOrder α] [DecidableEq α]
    (s : Indexer α) (t : α) (m : Nat) :
    s.find_scan t (m + 1) =
      match s.pinned.getD m none with
      | some it =>
        if t < it then none else if it < t then s.find_scan t m else some m
      | none => s.find_scan t m := rfl

theorem find_scan_sound {α : Type} [LinearOrder α] [DecidableEq α]
    (s : Indexer α) (t : α) :
    ∀ n i, s.find_scan t n = some i → s.pinned.getD i none = some t := by
  intro n
  induction n with
  | zero => intro i h; simp [Indexer.find_scan] at h
  | succ m ih =>
    intro i h
    rw [find_scan_succ] at h
    cases hg : s.pinned.getD m none with
    | none => rw [hg] at h; exact ih i h
    | some it =>
      rw [hg] at h
      by_cases h1 : t < it
      · simp [h1] at h
      · by_cases h2 : it < t
        · simp [h1, h2] at h
          exact ih i h
        · simp [h1, h2] at h
          have ht : t = it := le_antisymm (not_lt.mp h2) (not_lt.mp h1)
          rw [← h, hg, ht]

theorem find_scan_complete {α : Type} [LinearOrder α] [DecidableEq α]
    (s : Indexer α) (t : α) (hs : sortedSlots s.pinned) {i : Nat}
    (hi : s.pinned.getD i none = some t) :
    ∀ n, i < n → s.find_scan t n = some i := by
  intro n
  induction n with
  | zero => intro h; omega
  | succ m ih =>
    intro hlt
    rw [find_scan_succ]
    cases hg : s.pinned.getD m none with
    | none =>
      have hne : i ≠ m := by
        rintro rfl
        rw [hi] at hg
        cases hg
      exact ih (by omega)
    | some it =>
      by_cases h1 : t < it
      · exfalso
        rcases Nat.lt_or_ge i m with him | him
        · exact absurd (sortedSlots_lt hs him hi hg) (lt_asymm h1)
        · have hieq : i = m := by omega
          subst hieq
          rw [hi] at hg
          injection hg with hg'
          exact absurd (hg' ▸ h1) (lt_irrefl t)
      · by_cases h2 : it < t
        · have hne : i ≠ m := by
            rintro rfl
            rw [hi] at hg
            injection hg with hg'
            exact absurd (hg' ▸ h2) (lt_irrefl t)
          simp [h1, h2]
          exact ih (by omega)
        · simp [h1, h2]
          rcases Nat.lt_or_ge i m with him | him
          · exact absurd (sortedSlots_lt hs him hi hg) h2
          · omega

/-- Claim C5: on any indexer state whose pinned slots satisfy the descending-order
invariant, `find t` returns `some i` exactly when slot `i` is occupied by a
key equal to `t`, and returns `none` when no pinned slot holds `t`. -/
theorem c5_find_correct {α : Type} [LinearOrder α] [DecidableEq α]
    (s : Indexer α) (t : α) (hs : sortedSlots s.pinned) :
    (∀ i, s.find t = some i ↔ s.pinned.getD i none = some t) ∧
    ((∀ i, s.pinned.getD i none ≠ some t) → s.find t = none) := by
  constructor
  · intro i
    constructor
    · exact find_scan_sound s t s.pinned.length i
    · intro hi
      exact find_scan_complete s t hs hi s.pinned.length (getD_some_lt_length hi)
  · intro hall
    cases hf : s.find t with
    | none => rfl
    | some j => exact absurd (find_scan_sound s t _ j hf) (hall j)

/-- Witness for C5 at a concrete sorted state. -/
theorem c5_find_correct_witness :
    sortedSlots c5Demo.pinned ∧
    (c5Demo.find 3 = some 2 ↔ c5Demo.pinned.getD 2 none = some 3) :=
  ⟨by decide, (c5_find_correct c5Demo 3 (by decide)).1 2⟩

/-! ## `open_all` admission count (claim C7) -/

theorem length_constructedCandidates {K D : Type} (keys : List K)
    (new? : K → Option D) :
    (constructedCandidates keys new?).length = (keys.filterMap new?).length := by
  induction keys with
  | nil => rfl
  | cons k ks ih =>
    unfold constructedCandidates at ih ⊢
    rw [List.filterMap_cons, List.filterMap_cons]
    cases h : new? k
    · simpa using ih
    · simpa using ih

/-- Claim C7 counterexample: with two candidate keys that both construct and whose
drivers both accept (their `join` loops exit cooperatively), `open_all` with
admission quota `len = 1` returns 2 drivers, not `min 2 1 = 1`: the final
`filter_map` keeps every worker whose `join` returned `true`, and nothing
caps the collection at `len`. -/
theorem c7_open_all_exceeds_quota :
    (open_all [0, 1] (fun k => some k) (fun _ _ => true) 1 100).length = 2 ∧
    min 2 1 = 1 ∧ (2 : Nat) ≠ 1 :=
  ⟨rfl, rfl, by decide⟩

/-- Claim C7 as amended: when every constructed candidate's `join` loop exits
cooperatively, `open_all` returns *all* `N` constructed drivers — the
admission quota `len` only feeds the inspector's continue-condition and does
not bound the returned vector. -/
theorem c7_open_all_returns_all_accepting {K D : Type} (keys : List K)
    (new? : K → Option D) (accepts : K → D → Bool) (len timeout : Nat)
    (h : ∀ k d, new? k = some d → accepts k d = true) :
    open_all keys new? accepts len timeout = constructedCandidates keys new? ∧
    (open_all keys new? accepts len timeout).length =
      (keys.filterMap new?).length := by
  have heq : open_all keys new? accepts len timeout =
      constructedCandidates keys new? := by
    unfold open_all constructedCandidates
    rw [List.filter_eq_self]
    intro a ha
    rw [List.mem_filterMap] at ha
    obtain ⟨k, _, hmap⟩ := ha
    rw [Option.map_eq_some'] at hmap
    obtain ⟨d, hd, hpd⟩ := hmap
    subst hpd
    exact h k d hd
  exact ⟨heq, by rw [heq]; exact length_constructedCandidates keys new?⟩

/-- Witness for C7's amended statement: three keys, two of which construct
drivers, all accepting — both constructed drivers are returned. -/
theorem c7_open_all_returns_all_accepting_witness :
    (∀ k d, c7new k = some d → c7accepts k d = true) ∧
    (open_all [0, 1, 2] c7new c7accepts 5 100).length =
      ([0, 1, 2].filterMap c7new).length :=
  ⟨fun _ _ _ => rfl,
    (c7_open_all_returns_all_accepting [0, 1, 2] c7new c7accepts 5 100
      (fun _ _ _ => rfl)).2⟩

/-! ## Single-device supervisor (claim C10) -/

/-- Claim C10: in `SupervisorForSingle::join`, whenever the context is empty and an
iteration's `open_some(1)` yields a driver for which the user callback
returns `false` on `Connected`, `join` returns at once with that driver
already stored in the context (the source stores into `self.0` *before*
invoking the callback), so an immediately following `take()` yields exactly
that driver and empties the supervisor. -/
theorem c10_declined_connect_keeps_driver {K D : Type}
    (env : SingleIterEnv K D) (rest : List (SingleIterEnv K D))
    (s : SupervisorForSingle D) (t : K) (d : D)
    (hsaved : s.saved = none) (hopen : env.openResult = some (t, d))
    (hf : env.fConnected t d = false) :
    join_loop (env :: rest) s = some ⟨some d⟩ ∧
    (SupervisorForSingle.take ⟨some d⟩).1 = some d ∧
    (SupervisorForSingle.take ⟨some d⟩).2.saved = (none : Option D) := by
  refine ⟨?_, rfl, rfl⟩
  obtain ⟨sv⟩ := s
  simp only at hsaved
  subst hsaved
  simp [join_loop, join_body, hopen, hf]

/-- Witness for C10 at the concrete oracle `c10Env`. -/
theorem c10_declined_connect_keeps_driver_witness :
    ((⟨none⟩ : SupervisorForSingle Nat).saved = none ∧
      c10Env.openResult = some (3, 7) ∧ c10Env.fConnected 3 7 = false) ∧
    join_loop [c10Env] (⟨none⟩ : SupervisorForSingle Nat) = some ⟨some 7⟩ ∧
    (SupervisorForSingle.take (⟨some 7⟩ : SupervisorForSingle Nat)).1 = some 7 :=
  ⟨⟨rfl, rfl, rfl⟩,
    ⟨(c10_declined_connect_keeps_driver c10Env [] ⟨none⟩ 3 7 rfl rfl rfl).1,
      (c10_declined_connect_keeps_driver c10Env [] ⟨none⟩ 3 7 rfl rfl rfl).2.1⟩⟩
